import Mathlib

/-!
# Interactive Cluster Explorer — verification development

Shallow embedding of the interactive cluster explorer of
`04_MachineLearning_solution.ipynb` (the `draw_plot` function bound to an
`interact` slider `n_clusters=(1,10)`), together with models of the external
collaborators the notebook delegates to (clustering routine, palette
provider, projection routine), following the contracts stated in the
specification.

The source cell is, in full:

  colors = sns.color_palette(n_colors=10)
  mds_pos = mds.fit(data.data).embedding_
  @interact(n_clusters=(1,10))
  def draw_plot(n_clusters):
      instance = KMeans(n_clusters=n_clusters, random_state = 102)
      clusters_assignment = instance.fit_predict(data.data)
      plt.scatter(mds_pos[:, 0], mds_pos[:, 1], s=20,
                  c=[colors[i] for i in clusters_assignment])

The globals `data.data` (sample-by-feature array), `mds_pos` (2D point
layout) and `colors` (palette) become explicit fields of an
`ExplorerState`; the rendered figure becomes the `plot` field; a Python
exception becomes an error value returned alongside the unchanged state.
-/

namespace IrisExplorer

/-- A sample: one row of the sample-by-feature array, as rational features. -/
abbrev Sample := List ℚ

/-- Squared Euclidean distance between two feature vectors. -/
def sqDist (x y : Sample) : ℚ :=
  (List.zipWith (fun a b => (a - b) * (a - b)) x y).sum

/-- Tail of a first-minimum scan: `argminAux ds bd bi i` returns the index of
the first strict improvement over the best-so-far distance `bd` at best index
`bi`, with `i` the index of the head of `ds`. -/
def argminAux : List ℚ → ℚ → ℕ → ℕ → ℕ
  | [], _, bi, _ => bi
  | d :: ds, bd, bi, i => if d < bd then argminAux ds d i (i + 1) else argminAux ds bd bi (i + 1)

/-- Index of the first nearest centroid of `x` among `cs` (0 when `cs = []`). -/
def nearest (x : Sample) (cs : List Sample) : ℕ :=
  match cs with
  | [] => 0
  | c :: rest => argminAux (rest.map (sqDist x)) (sqDist x c) 0 1

/-- Componentwise sum of two feature vectors. -/
def vecAdd (x y : Sample) : Sample := List.zipWith (· + ·) x y

/-- Scale a feature vector by a rational. -/
def vecSmul (q : ℚ) (x : Sample) : Sample := x.map (fun a => q * a)

/-- Mean of a cluster of samples; an empty cluster keeps the old centroid. -/
def centroid (old : Sample) (pts : List Sample) : Sample :=
  match pts with
  | [] => old
  | p :: ps => vecSmul (1 / ((ps.length : ℚ) + 1)) (ps.foldl vecAdd p)

/-- One Lloyd update: each centroid moves to the mean of the samples
currently nearest to it. -/
def updateCentroids (data : List Sample) (cs : List Sample) : List Sample :=
  (List.range cs.length).map
    (fun i => centroid (cs.getD i []) (data.filter (fun x => nearest x cs = i)))

/-- Lloyd iteration with fuel, stopping at a fixed point. -/
def lloyd (data : List Sample) : ℕ → List Sample → List Sample
  | 0, cs => cs
  | n + 1, cs =>
    if updateCentroids data cs = cs then cs
    else lloyd data n (updateCentroids data cs)

/-- Seed-determined initial centroids: `k` samples read off the dataset
starting at an offset derived from the seed. -/
def kmeansInit (seed k : ℕ) (data : List Sample) : List Sample :=
  (List.range k).map (fun i => data.getD ((seed + i) % data.length) [])

/-- Centroids after running seeded K-Means on `data` with `k` clusters. -/
def kmeansCentroids (seed k : ℕ) (data : List Sample) : List Sample :=
  lloyd data 300 (kmeansInit seed k data)

/-- Modelled from the spec: the external clustering routine
(`KMeans(n_clusters, random_state).fit_predict(data)`), which the notebook
delegates to a library and the spec describes as "given the sample-by-feature
array and an integer cluster count, returns one integer label per sample".
Modelled as deterministic seeded K-Means (Lloyd iteration from a
seed-determined initialisation); `none` models the `ValueError` the routine
raises when `n_clusters` is zero or exceeds the number of samples. -/
def kmeansFitPredict (seed n_clusters : ℕ) (data : List Sample) : Option (List ℕ) :=
  if n_clusters = 0 ∨ data.length < n_clusters then none
  else some (data.map (fun x => nearest x (kmeansCentroids seed n_clusters data)))

/-- An RGB color. -/
structure Color where
  r : ℕ
  g : ℕ
  b : ℕ
deriving DecidableEq

/-- Modelled from the spec: the palette provider
(`colors = sns.color_palette(n_colors=10)`), "an ordered sequence of at
least 10 distinct colors, indexed by cluster label; fixed for the session".
The ten RGB values are the ten-color variant of the default seaborn palette. -/
def colors : List Color :=
  [⟨76, 114, 176⟩, ⟨221, 132, 82⟩, ⟨85, 168, 104⟩, ⟨196, 78, 82⟩,
   ⟨129, 114, 179⟩, ⟨147, 120, 96⟩, ⟨218, 139, 195⟩, ⟨140, 140, 140⟩,
   ⟨204, 185, 116⟩, ⟨100, 181, 205⟩]

/-- The color list `[colors[i] for i in labels]`; `none` models the
`IndexError` raised when some label is out of the palette's range. -/
def lookupColors (palette : List Color) : List ℕ → Option (List Color)
  | [] => some []
  | i :: is =>
    match palette.get? i, lookupColors palette is with
    | some c, some cs => some (c :: cs)
    | _, _ => none

/-- A rendered scatter plot: the assignment it was drawn from and one
(coordinate, color) pair per sample. -/
structure Plot where
  assignment : List ℕ
  points : List ((ℚ × ℚ) × Color)
deriving DecidableEq

/-- The explorer's state: the globals the notebook cell reads
(`data.data`, `mds_pos`, `colors`) made explicit, plus the currently
rendered figure (`none` before the first successful draw). -/
structure ExplorerState where
  data : List Sample
  mds_pos : List (ℚ × ℚ)
  palette : List Color
  plot : Option Plot
deriving DecidableEq

/-- Python exceptions observable from the cell. -/
inductive PyError where
  /-- Raised inside the clustering routine for an invalid cluster count. -/
  | valueError
  /-- Raised by the palette lookup `colors[i]` for an out-of-range label. -/
  | indexError
  /-- The condition named by the spec; never raised by the code. -/
  | outOfRangeParameter
deriving DecidableEq

/-- The body of `draw_plot`, parametric in the external clustering routine it
calls: run the clustering on the feature data, build the color list, and
replace the rendered figure with a fresh scatter of the fixed layout.  An
exception leaves the state (the previously rendered figure included)
unchanged and is reported alongside it. -/
def draw_plotWith (cluster : ℕ → List Sample → Option (List ℕ)) (n_clusters : ℕ)
    (s : ExplorerState) : ExplorerState × Option PyError :=
  match cluster n_clusters s.data with
  | none => (s, some PyError.valueError)
  | some clusters_assignment =>
    match lookupColors s.palette clusters_assignment with
    | none => (s, some PyError.indexError)
    | some cs =>
      ({ s with plot := some ⟨clusters_assignment, s.mds_pos.zip cs⟩ }, none)

/-- The notebook's `draw_plot`: the clustering routine is K-Means with the
fixed seed `random_state = 102`, the same for every cluster count. -/
def draw_plot : ℕ → ExplorerState → ExplorerState × Option PyError :=
  draw_plotWith (kmeansFitPredict 102)

/-- The slider range handed to the `interact` binding:
`@interact(n_clusters=(1,10))`. -/
def interactRange : ℕ × ℕ := (1, 10)

/-- Run a sequence of slider changes, keeping only the resulting states. -/
def runCalls (ks : List ℕ) (s : ExplorerState) : ExplorerState :=
  ks.foldl (fun t k => (draw_plot k t).1) s

/-- Well-formed session: the palette is the ten-color global, and the
projection routine supplied one 2D coordinate per sample. -/
def WellFormed (s : ExplorerState) : Prop :=
  s.palette = colors ∧ s.mds_pos.length = s.data.length

instance (s : ExplorerState) : Decidable (WellFormed s) := by
  unfold WellFormed
  infer_instance

/-! ## Basic lemmas on the clustering model -/

theorem argminAux_lt (ds : List ℚ) : ∀ (bd : ℚ) (bi i : ℕ), bi < i →
    argminAux ds bd bi i < i + ds.length := by
  induction ds with
  | nil => intro bd bi i h; simpa [argminAux] using h
  | cons d ds ih =>
    intro bd bi i h
    simp only [argminAux]
    split
    · have h2 := ih d i (i + 1) (Nat.lt_succ_self i)
      simp only [List.length_cons]
      omega
    · have h2 := ih bd bi (i + 1) (Nat.lt_succ_of_lt h)
      simp only [List.length_cons]
      omega

theorem nearest_lt (x : Sample) (cs : List Sample) (h : cs ≠ []) :
    nearest x cs < cs.length := by
  match cs with
  | [] => exact absurd rfl h
  | c :: rest =>
    have h2 := argminAux_lt (rest.map (sqDist x)) (sqDist x c) 0 1 Nat.one_pos
    simpa [nearest, Nat.add_comm] using h2

theorem nearest_singleton (x : Sample) (c : Sample) : nearest x [c] = 0 := rfl

theorem updateCentroids_length (data cs : List Sample) :
    (updateCentroids data cs).length = cs.length := by
  simp [updateCentroids]

theorem lloyd_length (data : List Sample) :
    ∀ (n : ℕ) (cs : List Sample), (lloyd data n cs).length = cs.length := by
  intro n
  induction n with
  | zero => intro cs; rfl
  | succ n ih =>
    intro cs
    simp only [lloyd]
    split
    · rfl
    · rw [ih, updateCentroids_length]

theorem kmeansInit_length (seed k : ℕ) (data : List Sample) :
    (kmeansInit seed k data).length = k := by
  simp [kmeansInit]

theorem kmeansCentroids_length (seed k : ℕ) (data : List Sample) :
    (kmeansCentroids seed k data).length = k := by
  rw [kmeansCentroids, lloyd_length, kmeansInit_length]

/-- Characterisation of a successful clustering call. -/
theorem kmeansFitPredict_eq_some {seed k : ℕ} {data : List Sample} {labels : List ℕ}
    (h : kmeansFitPredict seed k data = some labels) :
    k ≠ 0 ∧ k ≤ data.length ∧
      labels = data.map (fun x => nearest x (kmeansCentroids seed k data)) := by
  rw [kmeansFitPredict] at h
  split at h
  · exact absurd h (by simp)
  · rename_i hcond
    push_neg at hcond
    exact ⟨hcond.1, hcond.2, (Option.some.injEq _ _ ▸ h).symm⟩

theorem kmeansFitPredict_isSome (seed k : ℕ) (data : List Sample)
    (h1 : k ≠ 0) (h2 : k ≤ data.length) :
    kmeansFitPredict seed k data =
      some (data.map (fun x => nearest x (kmeansCentroids seed k data))) := by
  rw [kmeansFitPredict, if_neg]
  push_neg
  exact ⟨h1, h2⟩

theorem kmeansFitPredict_length {seed k : ℕ} {data : List Sample} {labels : List ℕ}
    (h : kmeansFitPredict seed k data = some labels) : labels.length = data.length := by
  rcases kmeansFitPredict_eq_some h with ⟨-, -, h3⟩
  rw [h3, List.length_map]

theorem kmeansFitPredict_labels_lt {seed k : ℕ} {data : List Sample} {labels : List ℕ}
    (h : kmeansFitPredict seed k data = some labels) :
    ∀ l ∈ labels, l < k := by
  rcases kmeansFitPredict_eq_some h with ⟨h1, -, h3⟩
  intro l hl
  rw [h3] at hl
  rcases List.mem_map.mp hl with ⟨x, -, hx⟩
  have hne : kmeansCentroids seed k data ≠ [] := by
    intro hnil
    have := kmeansCentroids_length seed k data
    rw [hnil] at this
    exact h1 this.symm
  have := nearest_lt x (kmeansCentroids seed k data) hne
  rw [kmeansCentroids_length] at this
  exact hx ▸ this

/-- With a single cluster every sample gets label 0. -/
theorem kmeansFitPredict_one (seed : ℕ) (data : List Sample) (h : 1 ≤ data.length) :
    kmeansFitPredict seed 1 data = some (List.replicate data.length 0) := by
  rw [kmeansFitPredict_isSome seed 1 data one_ne_zero h]
  congr 1
  have hlen := kmeansCentroids_length seed 1 data
  rcases List.length_eq_one.mp hlen with ⟨c, hc⟩
  rw [hc]
  calc data.map (fun x => nearest x [c]) = data.map (fun _ => 0) := by
        exact List.map_congr_left (fun x _ => nearest_singleton x c)
    _ = List.replicate data.length 0 := List.map_const' data 0

/-! ## Lemmas on the palette lookup and the explorer step -/

theorem colors_length : colors.length = 10 := rfl

theorem get?_eq_some_getD {α : Type} (d : α) :
    ∀ (l : List α) (i : ℕ), i < l.length → l.get? i = some (l.getD i d) := by
  intro l
  induction l with
  | nil => intro i h; exact absurd h (by simp)
  | cons a l ih =>
    intro i h
    cases i with
    | zero => rfl
    | succ i =>
      have h2 : i < l.length := Nat.lt_of_succ_lt_succ h
      simp only [List.get?, List.getD, List.get?_cons_succ]
      have := ih i h2
      simp only [List.getD] at this
      exact this

/-- When every label is in range, the palette lookup succeeds and returns the
pointwise palette entries. -/
theorem lookupColors_eq_some (P : List Color) :
    ∀ (L : List ℕ), (∀ i ∈ L, i < P.length) →
      lookupColors P L = some (L.map (fun i => P.getD i ⟨0, 0, 0⟩)) := by
  intro L
  induction L with
  | nil => intro _; rfl
  | cons i is ih =>
    intro h
    have hi : i < P.length := h i (List.mem_cons_self i is)
    have his : ∀ j ∈ is, j < P.length := fun j hj => h j (List.mem_cons_of_mem i hj)
    simp only [lookupColors, get?_eq_some_getD ⟨0, 0, 0⟩ P i hi, ih his, List.map]

/-- `draw_plot` never touches the dataset, the layout or the palette. -/
theorem draw_plotWith_frame (cluster : ℕ → List Sample → Option (List ℕ))
    (k : ℕ) (s : ExplorerState) :
    ((draw_plotWith cluster k s).1).data = s.data ∧
      ((draw_plotWith cluster k s).1).mds_pos = s.mds_pos ∧
      ((draw_plotWith cluster k s).1).palette = s.palette := by
  rw [draw_plotWith]
  cases hc : cluster k s.data with
  | none => simp
  | some labels =>
    cases hl : lookupColors s.palette labels with
    | none => simp [hl]
    | some cs => simp [hl]

theorem draw_plot_frame (k : ℕ) (s : ExplorerState) :
    ((draw_plot k s).1).data = s.data ∧
      ((draw_plot k s).1).mds_pos = s.mds_pos ∧
      ((draw_plot k s).1).palette = s.palette :=
  draw_plotWith_frame (kmeansFitPredict 102) k s

/-- On a failing call the entire state, rendered figure included, is kept. -/
theorem draw_plotWith_error (cluster : ℕ → List Sample → Option (List ℕ))
    (k : ℕ) (s : ExplorerState) (h : (draw_plotWith cluster k s).2 ≠ none) :
    (draw_plotWith cluster k s).1 = s := by
  rw [draw_plotWith] at h ⊢
  cases hc : cluster k s.data with
  | none => rfl
  | some labels =>
    cases hl : lookupColors s.palette labels with
    | none => simp [hc, hl]
    | some cs =>
      rw [hc] at h
      simp only [hl] at h
      exact absurd rfl h

/-- Full description of a successful slider change: the clustering routine is
run with parameter `k` on the feature data, and the plot is replaced by a
fresh scatter pairing each fixed layout coordinate with the palette color of
that sample's new label. -/
theorem draw_plot_success (s : ExplorerState) (k : ℕ) (hWF : WellFormed s)
    (h1 : 1 ≤ k) (h2 : k ≤ 10) (h3 : k ≤ s.data.length) :
    ∃ labels, kmeansFitPredict 102 k s.data = some labels ∧
      labels.length = s.data.length ∧ (∀ l ∈ labels, l < k) ∧
      draw_plot k s =
        ({ s with plot := some ⟨labels,
            s.mds_pos.zip (labels.map (fun i => colors.getD i ⟨0, 0, 0⟩))⟩ }, none) := by
  have hk0 : k ≠ 0 := Nat.one_le_iff_ne_zero.mp h1
  have hkm := kmeansFitPredict_isSome 102 k s.data hk0 h3
  refine ⟨_, hkm, kmeansFitPredict_length hkm, kmeansFitPredict_labels_lt hkm, ?_⟩
  have hlt : ∀ l ∈ s.data.map (fun x => nearest x (kmeansCentroids 102 k s.data)),
      l < colors.length := by
    intro l hl
    have := kmeansFitPredict_labels_lt hkm l hl
    rw [colors_length]
    exact Nat.lt_of_lt_of_le this h2
  rw [hWF.1] at *
  have hlook := lookupColors_eq_some colors _ hlt
  rw [draw_plot, draw_plotWith, hkm]
  simp only [hWF.1, hlook]

theorem runCalls_frame : ∀ (ks : List ℕ) (s : ExplorerState),
    (runCalls ks s).data = s.data ∧ (runCalls ks s).mds_pos = s.mds_pos ∧
      (runCalls ks s).palette = s.palette := by
  intro ks
  induction ks with
  | nil => intro s; exact ⟨rfl, rfl, rfl⟩
  | cons k ks ih =>
    intro s
    have h1 := draw_plot_frame k s
    have h2 := ih ((draw_plot k s).1)
    simp only [runCalls, List.foldl_cons] at *
    exact ⟨h2.1.trans h1.1, h2.2.1.trans h1.2.1, h2.2.2.trans h1.2.2⟩

/-- The plot produced by a valid slider change depends only on the dataset,
the layout and the palette — not on the previously rendered figure. -/
theorem draw_plot_plot_eq_of_fields (s t : ExplorerState) (k : ℕ)
    (hWF : WellFormed s) (h1 : 1 ≤ k) (h2 : k ≤ 10) (h3 : k ≤ s.data.length)
    (hd : t.data = s.data) (hm : t.mds_pos = s.mds_pos) (hp : t.palette = s.palette) :
    ((draw_plot k t).1).plot = ((draw_plot k s).1).plot := by
  have hWFt : WellFormed t := ⟨hp.trans hWF.1, by rw [hd, hm]; exact hWF.2⟩
  rcases draw_plot_success s k hWF h1 h2 h3 with ⟨L, hkmL, -, -, heqL⟩
  rcases draw_plot_success t k hWFt h1 h2 (by rw [hd]; exact h3) with ⟨M, hkmM, -, -, heqM⟩
  have hML : M = L := by
    rw [hd] at hkmM
    exact Option.some.inj (hkmM.symm.trans hkmL)
  rw [heqL, heqM]
  simp [hML, hm]

/-! ## Concrete demonstration sessions

Small concrete instantiations of the external collaborators' data, used to
exercise the theorems on explicit inputs: a session with eleven samples of
one feature each, laid out by the projection routine on a line, and a
four-sample session. -/

/-- Eleven one-feature samples. -/
def demoData11 : List Sample :=
  [[0], [10], [20], [30], [40], [50], [60], [70], [80], [90], [100]]

/-- A 2D layout coordinate for each of the eleven samples. -/
def demoPos11 : List (ℚ × ℚ) :=
  [(0, 0), (1, 0), (2, 0), (3, 0), (4, 0), (5, 0), (6, 0), (7, 0), (8, 0), (9, 0), (10, 0)]

/-- An eleven-sample session before any draw. -/
def s11 : ExplorerState := ⟨demoData11, demoPos11, colors, none⟩

/-- Four one-feature samples. -/
def demoData4 : List Sample := [[0], [10], [20], [30]]

/-- A 2D layout coordinate for each of the four samples. -/
def demoPos4 : List (ℚ × ℚ) := [(0, 0), (1, 0), (2, 0), (3, 0)]

/-- A four-sample session before any draw. -/
def s4 : ExplorerState := ⟨demoData4, demoPos4, colors, none⟩

/-! ## The claims -/

/-- C1, counterexample: at cluster count 11 (outside [1,10]) on an
eleven-sample session, the clustering computation is performed and succeeds,
and the call fails afterwards with the palette lookup's IndexError — not
with an OutOfRangeParameter condition raised before clustering. -/
theorem C1_counterexample :
    (draw_plot 11 s11).2 = some PyError.indexError ∧
      (draw_plot 11 s11).2 ≠ some PyError.outOfRangeParameter ∧
      (kmeansFitPredict 102 11 s11.data).isSome = true := by
  with_unfolding_all decide

/-- C1, amended: for any cluster count, in range or not, `draw_plot` never
signals an OutOfRangeParameter condition (its only failures are the
clustering routine's ValueError and the palette lookup's IndexError, raised
inside the call rather than by up-front validation), and whenever the call
fails the previous state, rendered plot included, is retained unchanged. -/
theorem C1_no_out_of_range_signal (k : ℕ) (s : ExplorerState) :
    (draw_plot k s).2 ≠ some PyError.outOfRangeParameter ∧
      ((draw_plot k s).2 ≠ none → (draw_plot k s).1 = s) := by
  constructor
  · rw [draw_plot, draw_plotWith]
    cases hc : kmeansFitPredict 102 k s.data with
    | none => simp
    | some labels =>
      cases hl : lookupColors s.palette labels with
      | none => simp [hl]
      | some cs => simp [hl]
  · exact draw_plotWith_error (kmeansFitPredict 102) k s

/-- C1, witness for the amended claim: at cluster count 0 the call fails (in
the clustering routine), no OutOfRangeParameter condition is signalled, and
the session is left exactly as it was. -/
theorem C1_witness :
    (draw_plot 0 s11).2 ≠ some PyError.outOfRangeParameter ∧ (draw_plot 0 s11).1 = s11 :=
  ⟨(C1_no_out_of_range_signal 0 s11).1,
   (C1_no_out_of_range_signal 0 s11).2 (by with_unfolding_all decide)⟩

/-- C2: for a valid cluster count k in [1,10], every label in the assignment
returned by the clustering step satisfies 0 ≤ label < k (labels are ℕ, so
0 ≤ label holds by type). -/
theorem C2_labels_in_range (data : List Sample) (k : ℕ) (labels : List ℕ)
    (_hk1 : 1 ≤ k) (_hk2 : k ≤ 10)
    (h : kmeansFitPredict 102 k data = some labels) :
    ∀ l ∈ labels, l < k :=
  fun l hl => kmeansFitPredict_labels_lt h l hl

/-- C2, witness: at k = 10 on the eleven-sample session, the concrete
assignment has every label below 10. -/
theorem C2_witness :
    ([8, 9, 0, 0, 1, 2, 3, 4, 5, 6, 7].all (fun l => decide (l < 10))) = true :=
  List.all_eq_true.mpr (fun l hl =>
    decide_eq_true
      (C2_labels_in_range demoData11 10 [8, 9, 0, 0, 1, 2, 3, 4, 5, 6, 7]
        (by decide) (by decide) (by with_unfolding_all decide) l hl))

/-- C3: for a valid cluster count k in [1,10], the rendered assignment has
exactly one label per sample — its length is the number of samples, which
equals the length of the fixed point layout. -/
theorem C3_one_label_per_sample (s : ExplorerState) (k : ℕ) (hWF : WellFormed s)
    (h1 : 1 ≤ k) (h2 : k ≤ 10) (h3 : k ≤ s.data.length) :
    ∃ p, ((draw_plot k s).1).plot = some p ∧
      p.assignment.length = s.data.length ∧ s.data.length = s.mds_pos.length := by
  rcases draw_plot_success s k hWF h1 h2 h3 with ⟨L, -, hlen, -, heq⟩
  refine ⟨⟨L, s.mds_pos.zip (L.map (fun i => colors.getD i ⟨0, 0, 0⟩))⟩, ?_, hlen, hWF.2.symm⟩
  rw [heq]

/-- C3, witness: on the four-sample session at k = 3. -/
theorem C3_witness :
    ∃ p, ((draw_plot 3 s4).1).plot = some p ∧
      p.assignment.length = s4.data.length ∧ s4.data.length = s4.mds_pos.length :=
  C3_one_label_per_sample s4 3 (by decide) (by decide) (by decide) (by decide)

/-- C4: `draw_plot` is deterministic — a second invocation with the same
cluster count over the unchanged data renders exactly the same plot (the
clustering call uses the fixed seed 102 for every k). -/
theorem C4_deterministic (s : ExplorerState) (k : ℕ) (hWF : WellFormed s)
    (h1 : 1 ≤ k) (h2 : k ≤ 10) (h3 : k ≤ s.data.length) :
    ∃ p, ((draw_plot k s).1).plot = some p ∧
      ((draw_plot k ((draw_plot k s).1)).1).plot = some p := by
  rcases draw_plot_success s k hWF h1 h2 h3 with ⟨L, -, -, -, heq⟩
  rcases draw_plot_frame k s with ⟨hd, hm, hp⟩
  have hsame := draw_plot_plot_eq_of_fields s ((draw_plot k s).1) k hWF h1 h2 h3 hd hm hp
  refine ⟨⟨L, s.mds_pos.zip (L.map (fun i => colors.getD i ⟨0, 0, 0⟩))⟩, ?_, ?_⟩
  · rw [heq]
  · rw [hsame, heq]

/-- C4, witness: on the four-sample session at k = 3. -/
theorem C4_witness :
    ∃ p, ((draw_plot 3 s4).1).plot = some p ∧
      ((draw_plot 3 ((draw_plot 3 s4).1)).1).plot = some p :=
  C4_deterministic s4 3 (by decide) (by decide) (by decide) (by decide)

/-- C5: at cluster count 1 the rendered assignment is all zeros, one zero
per sample. -/
theorem C5_single_cluster (s : ExplorerState) (hWF : WellFormed s)
    (h : 1 ≤ s.data.length) :
    ∃ p, ((draw_plot 1 s).1).plot = some p ∧
      p.assignment = List.replicate s.data.length 0 := by
  rcases draw_plot_success s 1 hWF le_rfl (by norm_num) h with ⟨L, hkm, -, -, heq⟩
  have hL : L = List.replicate s.data.length 0 :=
    Option.some.inj (hkm.symm.trans (kmeansFitPredict_one 102 s.data h))
  refine ⟨⟨L, s.mds_pos.zip (L.map (fun i => colors.getD i ⟨0, 0, 0⟩))⟩, ?_, hL⟩
  rw [heq]

/-- C5, witness: on the four-sample session. -/
theorem C5_witness :
    ∃ p, ((draw_plot 1 s4).1).plot = some p ∧
      p.assignment = List.replicate s4.data.length 0 :=
  C5_single_cluster s4 (by decide) (by decide)

/-- C6: a valid slider change runs the external clustering routine with
parameter k on the sample-by-feature data (not on the 2D layout), obtains
one label per sample, and replaces the rendered figure wholesale with a
scatter pairing each fixed layout coordinate with the palette entry of that
sample's label — independently of whatever was rendered before. -/
theorem C6_full_redraw (s : ExplorerState) (k : ℕ) (hWF : WellFormed s)
    (h1 : 1 ≤ k) (h2 : k ≤ 10) (h3 : k ≤ s.data.length) :
    ∃ labels, kmeansFitPredict 102 k s.data = some labels ∧
      labels.length = s.data.length ∧
      draw_plot k s = ({ s with plot := some ⟨labels,
          s.mds_pos.zip (labels.map (fun i => colors.getD i ⟨0, 0, 0⟩))⟩ }, none) := by
  rcases draw_plot_success s k hWF h1 h2 h3 with ⟨L, hkm, hlen, -, heq⟩
  exact ⟨L, hkm, hlen, heq⟩

/-- C6, witness: on the four-sample session at k = 2. -/
theorem C6_witness :
    ∃ labels, kmeansFitPredict 102 2 s4.data = some labels ∧
      labels.length = s4.data.length ∧
      draw_plot 2 s4 = ({ s4 with plot := some ⟨labels,
          s4.mds_pos.zip (labels.map (fun i => colors.getD i ⟨0, 0, 0⟩))⟩ }, none) :=
  C6_full_redraw s4 2 (by decide) (by decide) (by decide) (by decide)

/-- C7: the palette is an ordered sequence of (at least) 10 distinct colors,
and every assignment produced by a valid clustering call indexes it in
bounds, so the color lookup of the redraw never fails. -/
theorem C7_palette_safe :
    10 ≤ colors.length ∧ colors.Nodup ∧
      ∀ (data : List Sample) (k : ℕ) (labels : List ℕ), 1 ≤ k → k ≤ 10 →
        kmeansFitPredict 102 k data = some labels →
        (lookupColors colors labels).isSome = true := by
  refine ⟨by decide, by decide, ?_⟩
  intro data k labels _hk1 hk2 h
  have hlt : ∀ l ∈ labels, l < colors.length := fun l hl =>
    Nat.lt_of_lt_of_le (kmeansFitPredict_labels_lt h l hl) (colors_length ▸ hk2)
  rw [lookupColors_eq_some colors labels hlt]
  rfl

/-- C7, witness: the concrete k = 10 assignment of the eleven-sample session
looks up successfully. -/
theorem C7_witness :
    10 ≤ colors.length ∧ colors.Nodup ∧
      (lookupColors colors [8, 9, 0, 0, 1, 2, 3, 4, 5, 6, 7]).isSome = true :=
  ⟨C7_palette_safe.1, C7_palette_safe.2.1,
   C7_palette_safe.2.2 demoData11 10 [8, 9, 0, 0, 1, 2, 3, 4, 5, 6, 7]
     (by decide) (by decide) (by with_unfolding_all decide)⟩

/-- C8: no invocation of `draw_plot`, valid or not, mutates the point layout,
the sample-by-feature data, or the palette — replacing the rendered figure is
its only effect on the state. -/
theorem C8_no_mutation (k : ℕ) (s : ExplorerState) :
    ((draw_plot k s).1).data = s.data ∧ ((draw_plot k s).1).mds_pos = s.mds_pos ∧
      ((draw_plot k s).1).palette = s.palette :=
  draw_plot_frame k s

/-- C9: the explorer is history-independent — after any sequence of preceding
slider changes, a valid change to k renders exactly the plot it would render
from the initial session, because each invocation builds a fresh clustering
model from only k and the fixed dataset. -/
theorem C9_history_independent (ks : List ℕ) (k : ℕ) (s : ExplorerState)
    (hWF : WellFormed s) (h1 : 1 ≤ k) (h2 : k ≤ 10) (h3 : k ≤ s.data.length) :
    ((draw_plot k (runCalls ks s)).1).plot = ((draw_plot k s).1).plot := by
  rcases runCalls_frame ks s with ⟨hd, hm, hp⟩
  exact draw_plot_plot_eq_of_fields s (runCalls ks s) k hWF h1 h2 h3 hd hm hp

/-- C9, witness: on the four-sample session, drawing at k = 3 after the
history [5, 2] (one failing, one successful change) matches drawing at k = 3
directly. -/
theorem C9_witness :
    ((draw_plot 3 (runCalls [5, 2] s4)).1).plot = ((draw_plot 3 s4).1).plot :=
  C9_history_independent [5, 2] 3 s4 (by decide) (by decide) (by decide) (by decide)

/-- C10: `draw_plot` itself validates nothing — for every cluster count,
in range or not, its behaviour is determined by the external clustering
routine's answer to exactly that count on the feature data; the actual
binding fixes the seed-102 K-Means as that routine, and the [1,10]
restriction lives only in the slider range handed to `interact`. -/
theorem C10_no_validation :
    (∀ (c1 c2 : ℕ → List Sample → Option (List ℕ)) (k : ℕ) (s : ExplorerState),
        c1 k s.data = c2 k s.data → draw_plotWith c1 k s = draw_plotWith c2 k s) ∧
      draw_plot = draw_plotWith (kmeansFitPredict 102) ∧ interactRange = (1, 10) := by
  refine ⟨?_, rfl, rfl⟩
  intro c1 c2 k s h
  rw [draw_plotWith, draw_plotWith, h]

/-- C10, witness: at the out-of-range count 11 the call is still forwarded —
replacing the K-Means routine by the constant answer it happens to give at
11 on the eleven-sample session leaves the behaviour unchanged. -/
theorem C10_witness :
    draw_plotWith (kmeansFitPredict 102) 11 s11 =
      draw_plotWith (fun _ _ => some [8, 9, 10, 0, 1, 2, 3, 4, 5, 6, 7]) 11 s11 :=
  C10_no_validation.1 (kmeansFitPredict 102)
    (fun _ _ => some [8, 9, 10, 0, 1, 2, 3, 4, 5, 6, 7]) 11 s11
    (by with_unfolding_all decide)

end IrisExplorer
